import Mathlib

/-!
Shallow embedding of the asynchronous job queue engine of
`src/backend/src/services/queue_manager.py` (classes `JobStatus`,
`JobPriority`, `QueueJob`, `RateLimiter`, `QueueManager`).

Modelling conventions:
* Redis hashes are association lists `List (String × α)` with the
  operations `hget` / `hset` / `hdel`; redis sorted sets are association
  lists `List (String × Int)` with unique members, with `zadd`, `zrem`,
  `zpopmax` (highest score, ties broken by the lexicographically greatest
  member, as redis ZPOPMAX does), `zrangebyscore` (inclusive bounds,
  returning members) and `zremrangebyscore`.
* All wall-clock values (`datetime.utcnow()`, `time.time()`, timestamps)
  are integer seconds, passed explicitly as a `now : Int` argument to each
  operation that reads the clock.
* `random.uniform(0.75, 1.25)` is an explicit rational `jitter` argument;
  theorems hypothesise `3/4 ≤ jitter ≤ 5/4`.
* Payload values are JSON scalars (the repository's payloads are flat
  dicts of strings and ints); `json.dumps(..., sort_keys=True)` is the
  key-sorted serialisation `jsonDumpsSorted`.
-/

namespace QueueManagerModel

/-- `HGET`: first binding of a key in an association list. -/
def hget {α : Type} : List (String × α) → String → Option α
  | [], _ => none
  | (k', v) :: r, k => if k' = k then some v else hget r k

/-- `HDEL`: remove a key's binding. -/
def hdel {α : Type} : List (String × α) → String → List (String × α)
  | [], _ => []
  | p :: r, k => if p.1 = k then hdel r k else p :: hdel r k

/-- `HSET`: bind a key, replacing any previous binding (observationally,
via `hget`, the same as redis's in-place overwrite). -/
def hset {α : Type} (m : List (String × α)) (k : String) (v : α) :
    List (String × α) :=
  hdel m k ++ [(k, v)]

/-- `ZADD`: insert a member with a score, replacing any previous score
(sorted sets are member→score association lists with unique members). -/
def zadd (z : List (String × Int)) (member : String) (score : Int) :
    List (String × Int) :=
  hset z member score

/-- `ZREM`: remove a member. -/
def zrem (z : List (String × Int)) (member : String) : List (String × Int) :=
  hdel z member

/-- Lexicographic comparison of char lists by codepoint — the order redis
uses (memcmp on the UTF-8 bytes) restricted to the ASCII member names the
queue uses. -/
def charListLt : List Char → List Char → Bool
  | [], [] => false
  | [], _ :: _ => true
  | _ :: _, [] => false
  | c :: cs, d :: ds =>
    if c < d then true else if d < c then false else charListLt cs ds

/-- Member order of a redis sorted set among equal scores. -/
def memberLt (a b : String) : Bool := charListLt a.data b.data

/-- Greatest entry by (score, then member lexicographically), as redis
orders a sorted set. -/
def zmaxElem : List (String × Int) → Option (String × Int)
  | [] => none
  | p :: r =>
    match zmaxElem r with
    | none => some p
    | some q =>
      if q.2 < p.2 then some p
      else if p.2 < q.2 then some q
      else if memberLt q.1 p.1 then some p else some q

/-- `ZPOPMAX`: pop the highest-scored member (lexicographically greatest on
score ties). -/
def zpopmax (z : List (String × Int)) :
    Option ((String × Int) × List (String × Int)) :=
  match zmaxElem z with
  | none => none
  | some p => some (p, zrem z p.1)

/-- `ZRANGEBYSCORE lo hi` (inclusive bounds): the members whose score lies
in the range, as redis-py returns them (members only). -/
def zrangebyscore (z : List (String × Int)) (lo hi : Int) : List String :=
  (z.filter (fun p => lo ≤ p.2 ∧ p.2 ≤ hi)).map (fun p => p.1)

/-- `ZREMRANGEBYSCORE lo hi`: drop the members whose score lies in the
inclusive range. -/
def zremrangebyscore (z : List (String × Int)) (lo hi : Int) :
    List (String × Int) :=
  z.filter (fun p => ¬ (lo ≤ p.2 ∧ p.2 ≤ hi))

/-- JSON scalar values: the repository's job payloads are flat dicts whose
values are strings and ints. -/
inductive JVal : Type
  | s : String → JVal
  | n : Int → JVal
deriving DecidableEq, Repr

/-- Python truthiness of a payload value (`if platform and user_id:`). -/
def jvalTruthy : JVal → Bool
  | .s v => v ≠ ""
  | .n i => i ≠ 0

/-- Python `str()` of a payload value (used for `str(user_id)` and for
f-string interpolation of `platform`). -/
def pyStr : JVal → String
  | .s v => v
  | .n i => toString i

/-- A job payload: a flat JSON object. -/
def Payload : Type := List (String × JVal)

instance : DecidableEq Payload := by
  unfold Payload
  infer_instance

instance : Repr Payload := by
  unfold Payload
  infer_instance

/-- Key-sorted insertion used by `jsonDumpsSorted`. -/
def insertByKey (p : String × JVal) : List (String × JVal) → List (String × JVal)
  | [] => [p]
  | q :: r => if p.1 ≤ q.1 then p :: q :: r else q :: insertByKey p r

/-- Sort a payload's entries by key, as `json.dumps(..., sort_keys=True)`
serialises a dict. -/
def sortByKey : List (String × JVal) → List (String × JVal)
  | [] => []
  | p :: r => insertByKey p (sortByKey r)

/-- Serialisation of one JSON scalar. -/
def jvalDump : JVal → String
  | .s v => "\x22" ++ v ++ "\x22"
  | .n i => toString i

/-- `json.dumps(payload, sort_keys=True)`: key-sorted serialisation. -/
def jsonDumpsSorted (p : Payload) : String :=
  "\x7b" ++ String.intercalate ", "
    ((sortByKey p).map (fun q => jvalDump (.s q.1) ++ ": " ++ jvalDump q.2))
    ++ "\x7d"

/-- The SHA-256/16-hex-digit digest of `QueueJob._generate_idempotency_key`,
modelled as the identity on the digested content: the development only uses
that the digest is a deterministic function of its input. -/
def sha256hex16 (content : String) : String := content

/-- `class JobStatus(Enum)`. -/
inductive JobStatus : Type
  | PENDING | QUEUED | PROCESSING | COMPLETED | FAILED | CANCELLED | RETRYING
deriving DecidableEq, Repr

/-- `class JobPriority(Enum)`. -/
inductive JobPriority : Type
  | LOW | NORMAL | HIGH | URGENT
deriving DecidableEq, Repr

/-- `JobPriority.value`: LOW=1, NORMAL=2, HIGH=3, URGENT=4. -/
def JobPriority.value : JobPriority → Int
  | .LOW => 1
  | .NORMAL => 2
  | .HIGH => 3
  | .URGENT => 4

/-- `@dataclass class QueueJob`.  `started_at` / `completed_at` default to
`None`; `created_at` and `scheduled_at` are filled in by `__post_init__`, so
in the model they are plain instants. -/
structure QueueJob : Type where
  id : String
  job_type : String
  payload : Payload
  priority : JobPriority := .NORMAL
  status : JobStatus := .PENDING
  created_at : Int
  scheduled_at : Int
  started_at : Option Int := none
  completed_at : Option Int := none
  retry_count : Nat := 0
  max_retries : Nat := 3
  retry_delay : Nat := 60
  idempotency_key : String
  error_message : Option String := none
  result : Option Payload := none
deriving DecidableEq, Repr

/-- `QueueJob._generate_idempotency_key`:
`sha256(f"{job_type}:{json.dumps(payload, sort_keys=True)}").hexdigest()[:16]`. -/
def generateIdempotencyKey (job_type : String) (payload : Payload) : String :=
  sha256hex16 (job_type ++ ":" ++ jsonDumpsSorted payload)

/-- `RateLimiter.limits`: requests-per-window configuration per platform. -/
def limits : String → Option (Nat × Nat)
  | "twitter" => some (300, 900)
  | "instagram" => some (200, 3600)
  | "facebook" => some (600, 3600)
  | "linkedin" => some (100, 3600)
  | _ => none

/-- The redis state touched by the queue manager and the rate limiter.
`rate` maps a `rate_limit:{platform}:{user_id}` key to its counter and its
absolute expiry instant (`SETEX` sets it to `now + window`; a key is live
while `now < expiry`, matching redis TTL expiry). -/
structure QMState : Type where
  jobs : List (String × QueueJob) := []
  idempotency : List (String × String) := []
  pending : List (String × Int) := []
  processing : List (String × Int) := []
  completed : List (String × Int) := []
  failed : List (String × Int) := []
  retryQ : List (String × Int) := []
  scheduled : List (String × Int) := []
  rate : List (String × (Nat × Int)) := []
deriving DecidableEq, Repr

/-- `GET` of a rate-limit counter: `none` once the key has expired. -/
def rateGet (r : List (String × (Nat × Int))) (key : String) (now : Int) :
    Option Nat :=
  match hget r key with
  | some (c, expiry) => if now < expiry then some c else none
  | none => none

/-- `TTL` of a rate-limit key: remaining seconds, or `-2` when absent or
expired (redis returns a negative sentinel then). -/
def rateTTL (r : List (String × (Nat × Int))) (key : String) (now : Int) : Int :=
  match hget r key with
  | some (_, expiry) => if now < expiry then expiry - now else -2
  | none => -2

/-- `INCR` of a live counter key (TTL is preserved). -/
def rateIncr (r : List (String × (Nat × Int))) (key : String) :
    List (String × (Nat × Int)) :=
  r.map (fun p => if p.1 = key then (p.1, (p.2.1 + 1, p.2.2)) else p)

/-- The counter key `f"rate_limit:{platform}:{user_id}"`. -/
def rateKey (platform user_id : String) : String :=
  "rate_limit:" ++ platform ++ ":" ++ user_id

/-- `RateLimiter.is_allowed(platform, user_id)`, returning the verdict and
the updated state. -/
def isAllowed (st : QMState) (now : Int) (platform user_id : String) :
    Bool × QMState :=
  match limits platform with
  | none => (true, st)
  | some cfg =>
    let key := rateKey platform user_id
    match rateGet st.rate key now with
    | none =>
      -- first request in window: SETEX key window 1
      (true, { st with rate := hset st.rate key (1, now + (cfg.2 : Int)) })
    | some current_count =>
      if cfg.1 ≤ current_count then (false, st)
      else (true, { st with rate := rateIncr st.rate key })

/-- `RateLimiter.get_reset_time(platform, user_id)`:
`utcnow + ttl` when the key has a positive TTL. -/
def getResetTime (st : QMState) (now : Int) (platform user_id : String) :
    Option Int :=
  match limits platform with
  | none => none
  | some _ =>
    let ttl := rateTTL st.rate (rateKey platform user_id) now
    if 0 < ttl then some (now + ttl) else none

/-- The pending-queue score `job.priority.value * 1000 + int(time.time())`. -/
def priorityScore (p : JobPriority) (now : Int) : Int :=
  p.value * 1000 + now

/-- `QueueManager.enqueue(job)`: idempotency lookup, then persist the record
and the idempotency mapping, then route to the pending or the scheduled
structure.  Returns the job id (the existing one on an idempotency hit) and
the updated state. -/
def enqueue (st : QMState) (now : Int) (job : QueueJob) : String × QMState :=
  match hget st.idempotency job.idempotency_key with
  | some existing_job_id => (existing_job_id, st)
  | none =>
    let st1 := { st with
      jobs := hset st.jobs job.id job
      idempotency := hset st.idempotency job.idempotency_key job.id }
    if job.scheduled_at ≤ now then
      (job.id, { st1 with
        pending := zadd st1.pending job.id (priorityScore job.priority now) })
    else
      (job.id, { st1 with
        scheduled := zadd st1.scheduled job.id job.scheduled_at })

/-- `QueueManager.get_job(job_id)`. -/
def getJob (st : QMState) (job_id : String) : Option QueueJob :=
  hget st.jobs job_id

/-- `QueueManager.update_job(job)`. -/
def updateJob (st : QMState) (job : QueueJob) : QMState :=
  { st with jobs := hset st.jobs job.id job }

/-- `QueueManager._move_scheduled_jobs`: promote due scheduled jobs, then
due retry jobs, into the pending structure.  The due lists are read before
each loop, as in the source. -/
def moveScheduledJobs (st : QMState) (now : Int) : QMState :=
  let ready_jobs := zrangebyscore st.scheduled 0 now
  let st1 := ready_jobs.foldl (fun s job_id =>
    match getJob s job_id with
    | some job =>
      { s with
        pending := zadd s.pending job_id (priorityScore job.priority now)
        scheduled := zrem s.scheduled job_id }
    | none => s) st
  let ready_retries := zrangebyscore st1.retryQ 0 now
  ready_retries.foldl (fun s job_id =>
    match getJob s job_id with
    | some job =>
      let job' := { job with status := .PENDING }
      { s with
        jobs := hset s.jobs job'.id job'
        pending := zadd s.pending job_id (priorityScore job.priority now)
        retryQ := zrem s.retryQ job_id }
    | none => s) st1

/-- `QueueManager.dequeue()`: promote due jobs, pop the highest-score
pending entry, transition the popped job to PROCESSING. -/
def dequeue (st : QMState) (now : Int) : Option QueueJob × QMState :=
  let st1 := moveScheduledJobs st now
  match zpopmax st1.pending with
  | none => (none, st1)
  | some (entry, rest) =>
    let job_id := entry.1
    let st2 := { st1 with pending := rest }
    match getJob st2 job_id with
    | none => (none, st2)
    | some job =>
      let job' := { job with status := .PROCESSING, started_at := some now }
      (some job', { st2 with
        jobs := hset st2.jobs job'.id job'
        processing := zadd st2.processing job_id now })

/-- `QueueManager.complete_job(job_id, result)`. -/
def completeJob (st : QMState) (now : Int) (job_id : String)
    (result : Option Payload) : QMState :=
  match getJob st job_id with
  | none => st
  | some job =>
    let job' := { job with
      status := .COMPLETED
      completed_at := some now
      result := some (result.getD []) }  -- `result or {}`
    let st1 := updateJob st job'
    { st1 with
      processing := zrem st1.processing job_id
      completed := zadd st1.completed job_id now }

/-- `QueueManager._calculate_retry_delay(retry_count, base_delay)`:
exponential backoff, `int()` truncation of the jittered value, then the
one-hour cap.  The sampled jitter is an explicit argument; on the sampled
range `[0.75, 1.25]` Python's `int()` truncation is `⌊·⌋`. -/
def calcRetryDelay (retry_count : Nat) (base_delay : Nat) (jitter : ℚ) : Int :=
  let delay : Int := (base_delay : Int) * 2 ^ (retry_count - 1)
  min ⌊(delay : ℚ) * jitter⌋ 3600

/-- `QueueManager.fail_job(job_id, error_message)`. -/
def failJob (st : QMState) (now : Int) (job_id : String)
    (error_message : String) (jitter : ℚ) : QMState :=
  match getJob st job_id with
  | none => st
  | some job =>
    let job1 := { job with
      error_message := some error_message
      retry_count := job.retry_count + 1 }
    let st1 := { st with processing := zrem st.processing job_id }
    if job1.retry_count ≤ job1.max_retries then
      let job2 := { job1 with status := .RETRYING }
      let retry_delay := calcRetryDelay job2.retry_count job2.retry_delay jitter
      let st2 := updateJob st1 job2
      { st2 with retryQ := zadd st2.retryQ job_id (now + retry_delay) }
    else
      let job2 := { job1 with status := .FAILED, completed_at := some now }
      let st2 := updateJob st1 job2
      { st2 with failed := zadd st2.failed job_id now }

/-- `QueueManager.cancel_job(job_id)`. -/
def cancelJob (st : QMState) (now : Int) (job_id : String) : Bool × QMState :=
  match getJob st job_id with
  | none => (false, st)
  | some job =>
    if job.status = .COMPLETED ∨ job.status = .FAILED ∨
        job.status = .CANCELLED then
      (false, st)
    else
      let job' := { job with status := .CANCELLED, completed_at := some now }
      let st1 := updateJob st job'
      (true, { st1 with
        pending := zrem st1.pending job_id
        processing := zrem st1.processing job_id
        retryQ := zrem st1.retryQ job_id
        scheduled := zrem st1.scheduled job_id })

/-- A registered job handler: returns a result payload or raises. -/
def Handler : Type := Payload → Except String Payload

/-- The handler-dispatch tail of `QueueManager.process_job` (reached when
the rate-limit guard falls through): look up the handler, run it, and
complete or fail the job; a missing handler raises and is caught by the
surrounding `except`, which calls `fail_job`. -/
def runHandler (handlers : List (String × Handler)) (st : QMState) (now : Int)
    (job : QueueJob) (jitter : ℚ) : Bool × QMState :=
  match hget handlers job.job_type with
  | none =>
    (false, failJob st now job.id
      ("No handler registered for job type: " ++ job.job_type) jitter)
  | some handler =>
    match handler job.payload with
    | .ok result => (true, completeJob st now job.id (some result))
    | .error e => (false, failJob st now job.id e jitter)

/-- The body of `QueueManager.process_job` beyond the two payload lookups,
matching on their results (`if platform and user_id:`).  `platform` is
handed to the rate limiter unconverted in the source; rendering it with
`pyStr` first is observationally equal, since no configured platform name
is the rendering of an int and the counter key interpolates `platform` as
a string anyway. -/
def processJobGate (handlers : List (String × Handler)) (st : QMState)
    (now : Int) (job : QueueJob) (jitter : ℚ) :
    Option JVal → Option JVal → Bool × QMState
  | some platform, some user_id =>
    if jvalTruthy platform && jvalTruthy user_id then
      let allowed := isAllowed st now (pyStr platform) (pyStr user_id)
      if allowed.1 then runHandler handlers allowed.2 now job jitter
      else
        match getResetTime allowed.2 now (pyStr platform) (pyStr user_id) with
        | some reset_time =>
          -- reschedule for after the rate-limit reset, with a 60 s buffer
          let job' := { job with
            scheduled_at := reset_time + 60
            status := .PENDING }
          let st1 := updateJob allowed.2 job'
          (true, { st1 with
            scheduled := zadd st1.scheduled job.id job'.scheduled_at })
        | none =>
          -- `raise Exception(error_msg)`, caught by the outer handler
          (false, failJob allowed.2 now job.id
            ("Rate limit exceeded for " ++ pyStr platform ++
              ". Resets at None") jitter)
    else runHandler handlers st now job jitter
  | _, _ => runHandler handlers st now job jitter

/-- `QueueManager.process_job(job)`: look up `platform` and `user_id` in
the payload and dispatch through `processJobGate`. -/
def processJob (handlers : List (String × Handler)) (st : QMState) (now : Int)
    (job : QueueJob) (jitter : ℚ) : Bool × QMState :=
  processJobGate handlers st now job jitter
    (hget job.payload "platform") (hget job.payload "user_id")

/-- `QueueManager.cleanup_old_jobs(days)`. -/
def cleanupOldJobs (st : QMState) (now : Int) (days : Nat) : QMState :=
  let cutoff_time : Int := now - (days : Int) * 24 * 60 * 60
  let old_completed := zrangebyscore st.completed 0 cutoff_time
  let st1 :=
    if old_completed.isEmpty then st
    else
      { st with
        completed := zremrangebyscore st.completed 0 cutoff_time
        jobs := old_completed.foldl (fun m job_id => hdel m job_id) st.jobs }
  let old_failed := zrangebyscore st1.failed 0 cutoff_time
  if old_failed.isEmpty then st1
  else
    { st1 with
      failed := zremrangebyscore st1.failed 0 cutoff_time
      jobs := old_failed.foldl (fun m job_id => hdel m job_id) st1.jobs }

/-! ### Concrete instances used by witnesses and counterexamples -/

/-- C2 witness: a fresh publish job. -/
def c2jobA : QueueJob :=
  { id := "id-a"
    job_type := "social_media_post"
    payload := [("platform", .s "twitter"), ("user_id", .n 7)]
    created_at := 0
    scheduled_at := 0
    idempotency_key := generateIdempotencyKey "social_media_post"
      [("platform", .s "twitter"), ("user_id", .n 7)] }

/-- C2 witness: an equivalent job (same type, same payload entries in a
different key order) submitted later. -/
def c2jobB : QueueJob :=
  { id := "id-b"
    job_type := "social_media_post"
    payload := [("user_id", .n 7), ("platform", .s "twitter")]
    created_at := 5
    scheduled_at := 5
    idempotency_key := generateIdempotencyKey "social_media_post"
      [("user_id", .n 7), ("platform", .s "twitter")] }

/-- C7 witness: a job on its last allowed failure
(`retry_count = max_retries = 3`). -/
def c7job : QueueJob :=
  { id := "j"
    job_type := "t"
    payload := []
    created_at := 0
    scheduled_at := 0
    retry_count := 3
    idempotency_key := "k" }

/-- C7 witness state. -/
def c7st : QMState := { jobs := [("j", c7job)] }

/-- C1 counterexample: a job currently PROCESSING. -/
def c1job : QueueJob :=
  { id := "p1"
    job_type := "t"
    payload := []
    status := .PROCESSING
    created_at := 0
    scheduled_at := 0
    started_at := some 5
    idempotency_key := "kp" }

/-- C1 counterexample state: the PROCESSING job sits in the processing
structure. -/
def c1st : QMState :=
  { jobs := [("p1", c1job)]
    processing := [("p1", 5)] }

/-- C1 witness: a PENDING job sitting in the pending structure. -/
def c1jobPending : QueueJob :=
  { id := "q1"
    job_type := "t"
    payload := []
    created_at := 0
    scheduled_at := 0
    idempotency_key := "kq" }

/-- C1 witness state. -/
def c1stPending : QMState :=
  { jobs := [("q1", c1jobPending)]
    pending := [("q1", 2010)] }

/-- C3 counterexample/witness: a CANCELLED (terminal) job whose
`completed_at` was set at its terminal transition. -/
def c3job : QueueJob :=
  { id := "c1"
    job_type := "t"
    payload := []
    status := .CANCELLED
    created_at := 0
    scheduled_at := 0
    completed_at := some 50
    idempotency_key := "kc" }

/-- C3 state. -/
def c3st : QMState := { jobs := [("c1", c3job)] }

/-- C5: a COMPLETED job finished 8 days before the sweep. -/
def c5jobOld : QueueJob :=
  { id := "j1"
    job_type := "t"
    payload := []
    status := .COMPLETED
    created_at := 0
    scheduled_at := 0
    completed_at := some 172800
    idempotency_key := "k1" }

/-- C5: a CANCELLED job, also 8 days old. -/
def c5jobCancelled : QueueJob :=
  { id := "j2"
    job_type := "t"
    payload := []
    status := .CANCELLED
    created_at := 0
    scheduled_at := 0
    completed_at := some 172800
    idempotency_key := "k2" }

/-- C5: a COMPLETED job finished 3 days before the sweep. -/
def c5jobYoung : QueueJob :=
  { id := "j3"
    job_type := "t"
    payload := []
    status := .COMPLETED
    created_at := 0
    scheduled_at := 0
    completed_at := some 604800
    idempotency_key := "k3" }

/-- C5 counterexample state: sweep time is 10 days (864000 s); `j1` is 8
days old (score 172800), `j3` 3 days old (score 604800), `j2` cancelled
and in no sweep queue. -/
def c5st : QMState :=
  { jobs := [("j1", c5jobOld), ("j2", c5jobCancelled), ("j3", c5jobYoung)]
    idempotency := [("k1", "j1"), ("k2", "j2"), ("k3", "j3")]
    completed := [("j1", 172800), ("j3", 604800)] }

/-- C6 counterexample: an URGENT job enqueued at `t = 0`. -/
def c6jobUrgent : QueueJob :=
  { id := "a"
    job_type := "t"
    payload := []
    priority := .URGENT
    created_at := 0
    scheduled_at := 0
    idempotency_key := "ka" }

/-- C6 counterexample: a LOW job enqueued 5000 s later. -/
def c6jobLow : QueueJob :=
  { id := "b"
    job_type := "t"
    payload := []
    priority := .LOW
    created_at := 5000
    scheduled_at := 0
    idempotency_key := "kb" }

/-- C6 counterexample state: both jobs pending at `t = 5000`. -/
def c6st : QMState := (enqueue (enqueue {} 0 c6jobUrgent).2 5000 c6jobLow).2

/-- C9: first NORMAL-priority job (id `"b"`). -/
def c9job1 : QueueJob :=
  { id := "b"
    job_type := "t"
    payload := []
    created_at := 10
    scheduled_at := 0
    idempotency_key := "k1" }

/-- C9: second NORMAL-priority job (id `"a"`), enqueued the same second. -/
def c9job2 : QueueJob :=
  { id := "a"
    job_type := "t"
    payload := []
    created_at := 10
    scheduled_at := 0
    idempotency_key := "k2" }

/-- C9 counterexample state: J1 then J2 enqueued within the same second
(`t = 10`). -/
def c9st : QMState := (enqueue (enqueue {} 10 c9job1).2 10 c9job2).2

/-- C4 witness: a publish job carrying a platform and a user id. -/
def c4job : QueueJob :=
  { id := "r1"
    job_type := "social_media_post"
    payload := [("platform", .s "twitter"), ("user_id", .n 1)]
    created_at := 0
    scheduled_at := 0
    idempotency_key := "kr" }

/-- C4 witness state: the twitter counter for user 1 is at its limit (300)
and expires at `t = 50`. -/
def c4st : QMState :=
  { jobs := [("r1", c4job)]
    rate := [(rateKey "twitter" "1", (300, 50))] }

/-! ### Lemmas about the store primitives -/

theorem hget_append {α : Type} (l₁ l₂ : List (String × α)) (k : String) :
    hget (l₁ ++ l₂) k =
      (match hget l₁ k with
       | none => hget l₂ k
       | some v => some v) := by
  induction l₁ with
  | nil => simp [hget]
  | cons p r ih =>
    cases p with
    | mk k' v =>
      by_cases h : k' = k <;> simp [hget, h, ih]

theorem hget_hdel {α : Type} (m : List (String × α)) (k k' : String) :
    hget (hdel m k) k' = if k = k' then none else hget m k' := by
  induction m with
  | nil => by_cases h : k = k' <;> simp [hdel, hget, h]
  | cons p r ih =>
    by_cases h1 : p.1 = k <;> by_cases h2 : k = k' <;>
      by_cases h3 : p.1 = k' <;>
        simp_all [hdel, hget]

theorem hget_hset {α : Type} (m : List (String × α)) (k k' : String) (v : α) :
    hget (hset m k v) k' = if k = k' then some v else hget m k' := by
  unfold hset
  rw [hget_append, hget_hdel]
  by_cases h : k = k'
  · subst h; simp [hget]
  · cases hm : hget m k' <;> simp [hget, hm, h]

theorem hget_hset_self {α : Type} (m : List (String × α)) (k : String) (v : α) :
    hget (hset m k v) k = some v := by
  rw [hget_hset]; simp

theorem hget_hset_ne {α : Type} (m : List (String × α)) (k k' : String) (v : α)
    (h : k ≠ k') : hget (hset m k v) k' = hget m k' := by
  rw [hget_hset]; simp [h]

theorem hget_hdel_self {α : Type} (m : List (String × α)) (k : String) :
    hget (hdel m k) k = none := by
  rw [hget_hdel]; simp

theorem hget_hdel_ne {α : Type} (m : List (String × α)) (k k' : String)
    (h : k ≠ k') : hget (hdel m k) k' = hget m k' := by
  rw [hget_hdel]; simp [h]

theorem hget_foldl_hdel {α : Type} (l : List String) (m : List (String × α))
    (k : String) :
    hget (l.foldl (fun acc j => hdel acc j) m) k =
      if k ∈ l then none else hget m k := by
  induction l generalizing m with
  | nil => simp
  | cons a l ih =>
    rw [List.foldl_cons, ih, hget_hdel]
    by_cases h2 : a = k
    · subst h2; simp
    · by_cases h1 : k ∈ l <;>
        simp [h1, h2, List.mem_cons, show k ≠ a from fun hh => h2 hh.symm]

theorem enqueue_hit (st : QMState) (t : Int) (job : QueueJob) (jid : String)
    (h : hget st.idempotency job.idempotency_key = some jid) :
    enqueue st t job = (jid, st) := by
  unfold enqueue
  rw [h]

theorem failJob_found (st : QMState) (now : Int) (job_id err : String)
    (jitter : ℚ) (job : QueueJob) (hjob : getJob st job_id = some job) :
    failJob st now job_id err jitter =
      if job.retry_count + 1 ≤ job.max_retries then
        { (updateJob { st with processing := zrem st.processing job_id }
            { job with
              error_message := some err
              retry_count := job.retry_count + 1
              status := .RETRYING }) with
          retryQ := zadd st.retryQ job_id
            (now + calcRetryDelay (job.retry_count + 1) job.retry_delay jitter) }
      else
        { (updateJob { st with processing := zrem st.processing job_id }
            { job with
              error_message := some err
              retry_count := job.retry_count + 1
              status := .FAILED
              completed_at := some now }) with
          failed := zadd st.failed job_id now } := by
  unfold failJob
  rw [hjob]
  rfl

theorem cancelJob_found (st : QMState) (now : Int) (job_id : String)
    (job : QueueJob) (hjob : getJob st job_id = some job) :
    cancelJob st now job_id =
      if job.status = .COMPLETED ∨ job.status = .FAILED ∨
          job.status = .CANCELLED then
        (false, st)
      else
        (true,
          { (updateJob st { job with
              status := .CANCELLED
              completed_at := some now }) with
            pending := zrem st.pending job_id
            processing := zrem st.processing job_id
            retryQ := zrem st.retryQ job_id
            scheduled := zrem st.scheduled job_id }) := by
  unfold cancelJob
  rw [hjob]
  rfl

theorem completeJob_found (st : QMState) (now : Int) (job_id : String)
    (result : Option Payload) (job : QueueJob)
    (hjob : getJob st job_id = some job) :
    completeJob st now job_id result =
      { (updateJob st { job with
          status := .COMPLETED
          completed_at := some now
          result := some (result.getD []) }) with
        processing := zrem st.processing job_id
        completed := zadd st.completed job_id now } := by
  unfold completeJob
  rw [hjob]
  rfl

theorem zrangebyscore_empty_filter (z : List (String × Int)) (lo hi : Int)
    (h : (zrangebyscore z lo hi).isEmpty) :
    z.filter (fun p => ¬ (lo ≤ p.2 ∧ p.2 ≤ hi)) = z := by
  unfold zrangebyscore at h
  rw [List.isEmpty_iff, List.map_eq_nil_iff, List.filter_eq_nil_iff] at h
  apply List.filter_eq_self.mpr
  intro p hp
  have hh := h p hp
  simp at hh ⊢
  omega

theorem cleanupOldJobs_char (st : QMState) (now : Int) (days : Nat) :
    cleanupOldJobs st now days =
      { st with
        completed :=
          zremrangebyscore st.completed 0 (now - (days : Int) * 24 * 60 * 60)
        failed :=
          zremrangebyscore st.failed 0 (now - (days : Int) * 24 * 60 * 60)
        jobs :=
          (zrangebyscore st.failed 0 (now - (days : Int) * 24 * 60 * 60)).foldl
            (fun m job_id => hdel m job_id)
            ((zrangebyscore st.completed 0
                (now - (days : Int) * 24 * 60 * 60)).foldl
              (fun m job_id => hdel m job_id) st.jobs) } := by
  have f1 := zrangebyscore_empty_filter st.completed 0
    (now - (days : Int) * 24 * 60 * 60)
  have f2 := zrangebyscore_empty_filter st.failed 0
    (now - (days : Int) * 24 * 60 * 60)
  simp only [cleanupOldJobs]
  by_cases h1 : (zrangebyscore st.completed 0
      (now - (days : Int) * 24 * 60 * 60)).isEmpty
  · rw [if_pos h1]
    have e1 : zrangebyscore st.completed 0
        (now - (days : Int) * 24 * 60 * 60) = [] := List.isEmpty_iff.mp h1
    have g1 : zremrangebyscore st.completed 0
        (now - (days : Int) * 24 * 60 * 60) = st.completed := f1 h1
    by_cases h2 : (zrangebyscore st.failed 0
        (now - (days : Int) * 24 * 60 * 60)).isEmpty
    · rw [if_pos h2]
      have e2 : zrangebyscore st.failed 0
          (now - (days : Int) * 24 * 60 * 60) = [] := List.isEmpty_iff.mp h2
      have g2 : zremrangebyscore st.failed 0
          (now - (days : Int) * 24 * 60 * 60) = st.failed := f2 h2
      rw [g1, g2, e1, e2]
      simp
    · rw [if_neg h2]
      rw [g1, e1]
      simp
  · rw [if_neg h1]
    dsimp only
    by_cases h2 : (zrangebyscore st.failed 0
        (now - (days : Int) * 24 * 60 * 60)).isEmpty
    · rw [if_pos h2]
      have e2 : zrangebyscore st.failed 0
          (now - (days : Int) * 24 * 60 * 60) = [] := List.isEmpty_iff.mp h2
      have g2 : zremrangebyscore st.failed 0
          (now - (days : Int) * 24 * 60 * 60) = st.failed := f2 h2
      rw [g2, e2]
      simp
    · rw [if_neg h2]

theorem zpopmax_pair_snd (a b : String) (sa sb : Int) (hs : sa < sb) :
    zpopmax [(a, sa), (b, sb)] =
      some ((b, sb), zrem [(a, sa), (b, sb)] b) := by
  have h2 : zmaxElem [(a, sa), (b, sb)] = some (b, sb) := by
    simp [zmaxElem, hs, show ¬ sb < sa by omega]
  unfold zpopmax
  rw [h2]

theorem zpopmax_pair_fst (a b : String) (sa sb : Int) (hs : sb < sa) :
    zpopmax [(a, sa), (b, sb)] =
      some ((a, sa), zrem [(a, sa), (b, sb)] a) := by
  have h2 : zmaxElem [(a, sa), (b, sb)] = some (a, sa) := by
    simp [zmaxElem, hs]
  unfold zpopmax
  rw [h2]

theorem zpopmax_singleton (a : String) (sa : Int) :
    zpopmax [(a, sa)] = some ((a, sa), zrem [(a, sa)] a) := rfl

theorem moveScheduledJobs_empty (st : QMState) (now : Int)
    (h1 : st.scheduled = []) (h2 : st.retryQ = []) :
    moveScheduledJobs st now = st := by
  unfold moveScheduledJobs
  rw [h1]
  simp only [zrangebyscore, List.filter_nil, List.map_nil, List.foldl_nil]
  rw [h2]
  simp only [List.filter_nil, List.map_nil, List.foldl_nil]

theorem enqueue_miss_pending (st : QMState) (now : Int) (job : QueueJob)
    (hmiss : hget st.idempotency job.idempotency_key = none)
    (hsched : job.scheduled_at ≤ now) :
    enqueue st now job =
      (job.id,
        { st with
          jobs := hset st.jobs job.id job
          idempotency := hset st.idempotency job.idempotency_key job.id
          pending := zadd st.pending job.id (priorityScore job.priority now) }) := by
  unfold enqueue
  rw [hmiss]
  dsimp only
  rw [if_pos hsched]

theorem dequeue_char (st : QMState) (now : Int) (A : QueueJob) (sa : Int)
    (rest : List (String × Int))
    (hsched : st.scheduled = []) (hretry : st.retryQ = [])
    (hpop : zpopmax st.pending = some ((A.id, sa), rest))
    (hja : hget st.jobs A.id = some A) :
    dequeue st now =
      (some { A with status := .PROCESSING, started_at := some now },
        { st with
          jobs := hset st.jobs A.id
            { A with status := .PROCESSING, started_at := some now }
          pending := rest
          processing := zadd st.processing A.id now }) := by
  have hmv := moveScheduledJobs_empty st now hsched hretry
  unfold dequeue
  rw [hmv]
  dsimp only
  rw [hpop]
  dsimp only
  have hg : getJob { st with pending := rest } A.id = some A := by
    unfold getJob
    exact hja
  rw [hg]

theorem enqueue_two_pending (tA tB : Int) (A B : QueueJob)
    (hid : A.id ≠ B.id) (hkey : A.idempotency_key ≠ B.idempotency_key)
    (hsA : A.scheduled_at ≤ tA) (hsB : B.scheduled_at ≤ tB) :
    (enqueue (enqueue {} tA A).2 tB B).2 =
      { jobs := hset (hset [] A.id A) B.id B
        idempotency :=
          hset (hset [] A.idempotency_key A.id) B.idempotency_key B.id
        pending := [(A.id, priorityScore A.priority tA),
          (B.id, priorityScore B.priority tB)] } := by
  have h1 := enqueue_miss_pending {} tA A rfl hsA
  rw [h1]
  dsimp only
  have hmiss2 : hget (hset ([] : List (String × String))
      A.idempotency_key A.id) B.idempotency_key = none := by
    rw [hget_hset_ne _ _ _ _ hkey]
    rfl
  rw [enqueue_miss_pending _ tB B hmiss2 hsB]
  simp only [zadd, hset, hdel]
  simp [hid]

theorem isAllowed_false_inv (st : QMState) (now : Int)
    (platform user_id : String)
    (h : (isAllowed st now platform user_id).1 = false) :
    (isAllowed st now platform user_id).2 = st ∧
    ∃ r, getResetTime st now platform user_id = some r ∧ now < r := by
  unfold isAllowed at h ⊢
  unfold getResetTime
  cases hl : limits platform with
  | none =>
    rw [hl] at h
    simp at h
  | some cfg =>
    rw [hl] at h
    dsimp only at h ⊢
    cases hg : rateGet st.rate (rateKey platform user_id) now with
    | none =>
      rw [hg] at h
      simp at h
    | some c =>
      rw [hg] at h
      dsimp only at h ⊢
      by_cases hcc : cfg.1 ≤ c
      · refine ⟨by rw [if_pos hcc], ?_⟩
        unfold rateGet at hg
        cases hk : hget st.rate (rateKey platform user_id) with
        | none =>
          rw [hk] at hg
          simp at hg
        | some p =>
          obtain ⟨cnt, expy⟩ := p
          rw [hk] at hg
          dsimp only at hg
          by_cases hexp : now < expy
          · refine ⟨expy, ?_, hexp⟩
            unfold rateTTL
            rw [hk]
            dsimp only
            rw [if_pos hexp, if_pos (show (0 : Int) < expy - now by omega)]
            congr 1
            omega
          · rw [if_neg hexp] at hg
            simp at hg
      · rw [if_neg hcc] at h
        simp at h

/-! ### Claim theorems -/

/-- **C10**: for every `is_allowed(platform, user_id)` call where the
platform has no configured limit (it is not one of twitter, instagram,
facebook, linkedin), the call returns `True` without creating or
incrementing any counter (the state is unchanged), and `get_reset_time`
for that platform returns `None` — jobs for unconfigured platforms are
never throttled. -/
theorem unconfigured_platform_never_throttled
    (st : QMState) (now : Int) (platform user_id : String)
    (h : limits platform = none) :
    isAllowed st now platform user_id = (true, st) ∧
    getResetTime st now platform user_id = none := by
  constructor <;> simp [isAllowed, getResetTime, h]

/-- Witness for C10 at platform `"tiktok"` (no configured limit). -/
theorem unconfigured_platform_never_throttled_witness :
    limits "tiktok" = none ∧
    (isAllowed {} 0 "tiktok" "42" = (true, {}) ∧
      getResetTime {} 0 "tiktok" "42" = none) :=
  ⟨by decide, unconfigured_platform_never_throttled {} 0 "tiktok" "42" (by decide)⟩

/-- **C8, counterexample**: at `retry_count = 1`, `base_delay = 2` and
sampled jitter `0.76`, the code returns `int(2 * 0.76) = 1`, which is not
`min(2 × jitter', 3600)` for any `jitter' ∈ [0.75, 1.25]` (that would need
`jitter' = 1/2`), and which also lies more than 25% below
`base_delay × 2^(retry_count−1) = 2`: the `int()` truncation happens
before the cap and breaks the claimed exact form. -/
theorem calc_retry_delay_exact_form_cex :
    calcRetryDelay 1 2 (19/25 : ℚ) = 1 ∧
    (calcRetryDelay 1 2 (19/25 : ℚ) : ℚ) < 3/4 * ((2 : ℚ) * 2 ^ (1 - 1)) ∧
    ¬ ∃ jitter : ℚ, 3/4 ≤ jitter ∧ jitter ≤ 5/4 ∧
      (calcRetryDelay 1 2 (19/25 : ℚ) : ℚ) =
        min ((2 : ℚ) * 2 ^ (1 - 1) * jitter) 3600 := by
  have h1 : calcRetryDelay 1 2 (19/25 : ℚ) = 1 := by
    norm_num [calcRetryDelay]
  refine ⟨h1, by rw [h1]; norm_num, ?_⟩
  rintro ⟨jitter, hj1, hj2, hj3⟩
  rw [h1] at hj3
  norm_num at hj3
  rw [min_eq_left (by linarith)] at hj3
  linarith

/-- **C8, amended**: the returned delay is
`min(int(base_delay × 2^(retry_count−1) × jitter), 3600)` — the jittered
value is truncated to an integer *before* the one-hour cap.  Hence the
delay never exceeds 3600 seconds, never exceeds `1.25 × x` for
`x = base_delay × 2^(retry_count−1)`, and when the truncated jittered
value is below the cap it exceeds `0.75 × x − 1` (within ±25% of `x` only
up to the ≤ 1-second truncation loss). -/
theorem calc_retry_delay_bounds
    (retry_count base_delay : Nat) (jitter : ℚ)
    (_hrc : 1 ≤ retry_count) (hj1 : 3/4 ≤ jitter) (hj2 : jitter ≤ 5/4) :
    calcRetryDelay retry_count base_delay jitter ≤ 3600 ∧
    (calcRetryDelay retry_count base_delay jitter : ℚ) ≤
      5/4 * ((base_delay : ℚ) * 2 ^ (retry_count - 1)) ∧
    (⌊((base_delay : ℚ) * 2 ^ (retry_count - 1)) * jitter⌋ ≤ 3600 →
      3/4 * ((base_delay : ℚ) * 2 ^ (retry_count - 1)) - 1 <
        (calcRetryDelay retry_count base_delay jitter : ℚ)) := by
  have hxeq : (((base_delay : Int) * 2 ^ (retry_count - 1) : Int) : ℚ) =
      (base_delay : ℚ) * 2 ^ (retry_count - 1) := by
    push_cast
    ring
  have hxnn : (0 : ℚ) ≤ (base_delay : ℚ) * 2 ^ (retry_count - 1) := by
    positivity
  have hcalc : calcRetryDelay retry_count base_delay jitter =
      min ⌊((base_delay : ℚ) * 2 ^ (retry_count - 1)) * jitter⌋ 3600 := by
    simp only [calcRetryDelay]
    rw [hxeq]
  refine ⟨hcalc ▸ min_le_right _ _, ?_, ?_⟩
  · have hfl : (⌊((base_delay : ℚ) * 2 ^ (retry_count - 1)) * jitter⌋ : ℚ) ≤
        ((base_delay : ℚ) * 2 ^ (retry_count - 1)) * jitter :=
      Int.floor_le _
    have hle : ((base_delay : ℚ) * 2 ^ (retry_count - 1)) * jitter ≤
        5/4 * ((base_delay : ℚ) * 2 ^ (retry_count - 1)) := by
      nlinarith
    have hmin : (min ⌊((base_delay : ℚ) * 2 ^ (retry_count - 1)) * jitter⌋ 3600 : Int) ≤
        ⌊((base_delay : ℚ) * 2 ^ (retry_count - 1)) * jitter⌋ := min_le_left _ _
    rw [hcalc]
    calc ((min ⌊((base_delay : ℚ) * 2 ^ (retry_count - 1)) * jitter⌋ 3600 : Int) : ℚ)
        ≤ (⌊((base_delay : ℚ) * 2 ^ (retry_count - 1)) * jitter⌋ : ℚ) := by
          exact_mod_cast hmin
      _ ≤ _ := le_trans hfl hle
  · intro hcap
    rw [hcalc, min_eq_left hcap]
    have hfl : ((base_delay : ℚ) * 2 ^ (retry_count - 1)) * jitter - 1 <
        (⌊((base_delay : ℚ) * 2 ^ (retry_count - 1)) * jitter⌋ : ℚ) :=
      Int.sub_one_lt_floor _
    nlinarith

/-- Witness for C8 amended at `retry_count = 2`, `base_delay = 60`,
`jitter = 1`. -/
theorem calc_retry_delay_bounds_witness :
    (1 ≤ 2 ∧ (3/4 : ℚ) ≤ 1 ∧ (1 : ℚ) ≤ 5/4) ∧
    (calcRetryDelay 2 60 1 ≤ 3600 ∧
      (calcRetryDelay 2 60 1 : ℚ) ≤ 5/4 * ((60 : ℚ) * 2 ^ (2 - 1)) ∧
      (⌊((60 : ℚ) * 2 ^ (2 - 1)) * 1⌋ ≤ 3600 →
        3/4 * ((60 : ℚ) * 2 ^ (2 - 1)) - 1 < (calcRetryDelay 2 60 1 : ℚ))) :=
  ⟨⟨by norm_num, by norm_num, by norm_num⟩,
    calc_retry_delay_bounds 2 60 1 (by norm_num) (by norm_num) (by norm_num)⟩

/-- **C2**: for jobs `A` and `B` with identical `job_type` and
canonically-equal payloads (equal after key-sorted serialisation), both
carrying the derived idempotency key, `enqueue(A)` followed by
`enqueue(B)` returns the same job id both times, stores exactly one job
record (`A`'s, all other records untouched), and the second `enqueue`
leaves the state completely unchanged — no new record and no queue
insertion. -/
theorem enqueue_idempotent
    (st : QMState) (tA tB : Int) (A B : QueueJob)
    (hAkey : A.idempotency_key = generateIdempotencyKey A.job_type A.payload)
    (hBkey : B.idempotency_key = generateIdempotencyKey B.job_type B.payload)
    (htype : A.job_type = B.job_type)
    (hpayload : sortByKey A.payload = sortByKey B.payload)
    (hfresh : hget st.idempotency A.idempotency_key = none) :
    (enqueue st tA A).1 = A.id ∧
    (enqueue (enqueue st tA A).2 tB B).1 = A.id ∧
    (enqueue (enqueue st tA A).2 tB B).2 = (enqueue st tA A).2 ∧
    hget (enqueue st tA A).2.jobs A.id = some A ∧
    ∀ j, j ≠ A.id → hget (enqueue st tA A).2.jobs j = hget st.jobs j := by
  have hkeys : B.idempotency_key = A.idempotency_key := by
    rw [hAkey, hBkey, htype]
    unfold generateIdempotencyKey jsonDumpsSorted
    rw [hpayload]
  have h1 : enqueue st tA A =
      (A.id,
        if A.scheduled_at ≤ tA then
          { st with
            jobs := hset st.jobs A.id A
            idempotency := hset st.idempotency A.idempotency_key A.id
            pending := zadd st.pending A.id (priorityScore A.priority tA) }
        else
          { st with
            jobs := hset st.jobs A.id A
            idempotency := hset st.idempotency A.idempotency_key A.id
            scheduled := zadd st.scheduled A.id A.scheduled_at }) := by
    unfold enqueue
    rw [hfresh]
    by_cases h : A.scheduled_at ≤ tA <;> simp [h]
  have hidem : (enqueue st tA A).2.idempotency =
      hset st.idempotency A.idempotency_key A.id := by
    rw [h1]
    by_cases h : A.scheduled_at ≤ tA <;> simp [h]
  have hjobs : (enqueue st tA A).2.jobs = hset st.jobs A.id A := by
    rw [h1]
    by_cases h : A.scheduled_at ≤ tA <;> simp [h]
  have hhit : hget (enqueue st tA A).2.idempotency B.idempotency_key =
      some A.id := by
    rw [hidem, hkeys, hget_hset_self]
  refine ⟨by rw [h1], ?_, ?_, ?_, ?_⟩
  · rw [enqueue_hit _ tB B A.id hhit]
  · rw [enqueue_hit _ tB B A.id hhit]
  · rw [hjobs, hget_hset_self]
  · intro j hj
    rw [hjobs, hget_hset_ne _ _ _ _ (fun hh => hj hh.symm)]

/-- Witness for C2: two fresh publish jobs (`c2jobA`, `c2jobB`) whose
payloads list the same entries in different key orders. -/
theorem enqueue_idempotent_witness :
    (c2jobA.idempotency_key =
        generateIdempotencyKey c2jobA.job_type c2jobA.payload ∧
      c2jobB.idempotency_key =
        generateIdempotencyKey c2jobB.job_type c2jobB.payload ∧
      c2jobA.job_type = c2jobB.job_type ∧
      sortByKey c2jobA.payload = sortByKey c2jobB.payload ∧
      hget (QMState.mk [] [] [] [] [] [] [] [] []).idempotency
        c2jobA.idempotency_key = none) ∧
    ((enqueue {} 0 c2jobA).1 = c2jobA.id ∧
      (enqueue (enqueue {} 0 c2jobA).2 5 c2jobB).1 = c2jobA.id) := by
  have hp : sortByKey c2jobA.payload = sortByKey c2jobB.payload := by
    simp [c2jobA, c2jobB, sortByKey, insertByKey]
    decide
  have h := enqueue_idempotent {} 0 5 c2jobA c2jobB rfl rfl rfl hp rfl
  exact ⟨⟨rfl, rfl, rfl, hp, rfl⟩, h.1, h.2.1⟩

/-- **C7**: `fail_job` increments `retry_count`; under the invariant
`retry_count ≤ max_retries` that every RETRYING transition re-establishes,
the updated record is RETRYING only while `retry_count ≤ max_retries`, and
the failure that makes `retry_count` exceed `max_retries` (the one hit with
`retry_count = max_retries`) ends FAILED with `completed_at` set,
`retry_count = max_retries + 1`, the job placed in the failed structure and
no new retry scheduled. -/
theorem fail_job_retry_bound
    (st : QMState) (now : Int) (job_id err : String) (jitter : ℚ)
    (job : QueueJob)
    (hjob : getJob st job_id = some job)
    (hid : job.id = job_id)
    (hinv : job.retry_count ≤ job.max_retries) :
    ∃ job', getJob (failJob st now job_id err jitter) job_id = some job' ∧
      job'.retry_count = job.retry_count + 1 ∧
      (job.retry_count < job.max_retries →
        job'.status = .RETRYING ∧ job'.retry_count ≤ job'.max_retries) ∧
      (job.retry_count = job.max_retries →
        job'.status = .FAILED ∧ job'.completed_at = some now ∧
        job'.retry_count = job.max_retries + 1 ∧
        hget (failJob st now job_id err jitter).failed job_id = some now ∧
        (failJob st now job_id err jitter).retryQ = st.retryQ) := by
  subst hid
  rw [failJob_found st now job.id err jitter job hjob]
  by_cases hle : job.retry_count + 1 ≤ job.max_retries
  · rw [if_pos hle]
    refine ⟨{ job with
        error_message := some err
        retry_count := job.retry_count + 1
        status := .RETRYING }, ?_, rfl, fun _ => ⟨rfl, hle⟩, fun heq => ?_⟩
    · show getJob (updateJob _ _) job.id = _
      unfold getJob updateJob
      exact hget_hset_self _ _ _
    · exact absurd hle (by omega)
  · rw [if_neg hle]
    have heq : job.retry_count = job.max_retries := by omega
    refine ⟨{ job with
        error_message := some err
        retry_count := job.retry_count + 1
        status := .FAILED
        completed_at := some now }, ?_, rfl, fun hlt => absurd hlt (by omega),
      fun _ => ⟨rfl, rfl, ?_, ?_, rfl⟩⟩
    · show getJob (updateJob _ _) job.id = _
      unfold getJob updateJob
      exact hget_hset_self _ _ _
    · show job.retry_count + 1 = job.max_retries + 1
      omega
    · show hget (zadd _ job.id now) job.id = some now
      exact hget_hset_self _ _ _

/-- Witness for C7: a job on its last allowed failure
(`retry_count = max_retries = 3`). -/
theorem fail_job_retry_bound_witness :
    (getJob c7st "j" = some c7job ∧ c7job.id = "j" ∧
      c7job.retry_count ≤ c7job.max_retries) ∧
    (∃ job', getJob (failJob c7st 100 "j" "boom" 1) "j" = some job' ∧
      job'.retry_count = c7job.retry_count + 1 ∧
      (c7job.retry_count < c7job.max_retries →
        job'.status = .RETRYING ∧ job'.retry_count ≤ job'.max_retries) ∧
      (c7job.retry_count = c7job.max_retries →
        job'.status = .FAILED ∧ job'.completed_at = some 100 ∧
        job'.retry_count = c7job.max_retries + 1 ∧
        hget (failJob c7st 100 "j" "boom" 1).failed "j" = some 100 ∧
        (failJob c7st 100 "j" "boom" 1).retryQ = c7st.retryQ)) :=
  ⟨⟨by decide, by decide, by decide⟩,
    fail_job_retry_bound c7st 100 "j" "boom" 1 c7job (by decide) (by decide)
      (by decide)⟩

/-- **C1, counterexample**: `cancel_job` on a PROCESSING job does *not*
return false — it returns true, sets the status to CANCELLED and sets
`completed_at`, because the guard in the source only checks for the three
terminal statuses. -/
theorem cancel_job_processing_cex :
    c1job.status = .PROCESSING ∧
    (cancelJob c1st 100 "p1").1 = true ∧
    (getJob (cancelJob c1st 100 "p1").2 "p1").map
        (fun j => (j.status, j.completed_at)) =
      some (.CANCELLED, some 100) := by
  refine ⟨rfl, ?_, ?_⟩ <;> decide

/-- **C1, amended**: `cancel_job` returns false and leaves the state
unchanged exactly when the job's status is terminal (COMPLETED, FAILED or
CANCELLED); for *every* other status — PENDING, QUEUED, RETRYING and also
PROCESSING — it succeeds: returns true, sets status CANCELLED and
`completed_at`, and removes the id from the pending, processing, retry and
scheduled structures. -/
theorem cancel_job_amended
    (st : QMState) (now : Int) (job_id : String) (job : QueueJob)
    (hjob : getJob st job_id = some job)
    (hid : job.id = job_id) :
    (¬ (job.status = .COMPLETED ∨ job.status = .FAILED ∨
        job.status = .CANCELLED) →
      (cancelJob st now job_id).1 = true ∧
      getJob (cancelJob st now job_id).2 job_id =
        some { job with status := .CANCELLED, completed_at := some now } ∧
      hget (cancelJob st now job_id).2.pending job_id = none ∧
      hget (cancelJob st now job_id).2.processing job_id = none ∧
      hget (cancelJob st now job_id).2.retryQ job_id = none ∧
      hget (cancelJob st now job_id).2.scheduled job_id = none) ∧
    ((job.status = .COMPLETED ∨ job.status = .FAILED ∨
        job.status = .CANCELLED) →
      cancelJob st now job_id = (false, st)) := by
  subst hid
  rw [cancelJob_found st now job.id job hjob]
  constructor
  · intro hterm
    rw [if_neg hterm]
    refine ⟨rfl, ?_, ?_, ?_, ?_, ?_⟩
    · show getJob (updateJob _ _) job.id = _
      unfold getJob updateJob
      exact hget_hset_self _ _ _
    · exact hget_hdel_self _ _
    · exact hget_hdel_self _ _
    · exact hget_hdel_self _ _
    · exact hget_hdel_self _ _
  · intro hterm
    rw [if_pos hterm]

/-- Witness for C1 amended: cancelling a PENDING job (`c1jobPending`)
succeeds and scrubs it from every structure; by the second conjunct a
terminal job would be refused. -/
theorem cancel_job_amended_witness :
    (getJob c1stPending "q1" = some c1jobPending ∧ c1jobPending.id = "q1") ∧
    ((¬ (c1jobPending.status = .COMPLETED ∨ c1jobPending.status = .FAILED ∨
        c1jobPending.status = .CANCELLED) →
      (cancelJob c1stPending 100 "q1").1 = true ∧
      getJob (cancelJob c1stPending 100 "q1").2 "q1" =
        some { c1jobPending with
          status := .CANCELLED
          completed_at := some 100 } ∧
      hget (cancelJob c1stPending 100 "q1").2.pending "q1" = none ∧
      hget (cancelJob c1stPending 100 "q1").2.processing "q1" = none ∧
      hget (cancelJob c1stPending 100 "q1").2.retryQ "q1" = none ∧
      hget (cancelJob c1stPending 100 "q1").2.scheduled "q1" = none) ∧
    ((c1jobPending.status = .COMPLETED ∨ c1jobPending.status = .FAILED ∨
        c1jobPending.status = .CANCELLED) →
      cancelJob c1stPending 100 "q1" = (false, c1stPending))) :=
  ⟨⟨by decide, by decide⟩,
    cancel_job_amended c1stPending 100 "q1" c1jobPending (by decide) (by decide)⟩

/-- **C3, counterexample**: `complete_job` performs no status check, so
invoked on the id of a CANCELLED (terminal) job whose `completed_at` was
set to 50 at cancellation, it overwrites the status to COMPLETED and
overwrites `completed_at` to the new instant 100. -/
theorem terminal_overwrite_cex :
    c3job.status = .CANCELLED ∧
    c3job.completed_at = some 50 ∧
    (getJob (completeJob c3st 100 "c1" none) "c1").map
        (fun j => (j.status, j.completed_at)) =
      some (.COMPLETED, some 100) := by
  refine ⟨rfl, rfl, ?_⟩
  decide

/-- **C3, amended**: `cancel_job` on a terminal job (COMPLETED, FAILED or
CANCELLED) returns false and changes nothing, but `complete_job` performs
no terminal-status guard: invoked on a terminal job's id it overwrites the
status to COMPLETED and overwrites `completed_at` — terminal states are
absorbing only for cancellation, not for the completion/failure
operations. -/
theorem terminal_state_amended
    (st : QMState) (now now2 : Int) (job_id : String) (job : QueueJob)
    (result : Option Payload)
    (hjob : getJob st job_id = some job)
    (hid : job.id = job_id)
    (hterm : job.status = .COMPLETED ∨ job.status = .FAILED ∨
      job.status = .CANCELLED) :
    cancelJob st now job_id = (false, st) ∧
    (getJob (completeJob st now2 job_id result) job_id).map
        (fun j => (j.status, j.completed_at)) =
      some (.COMPLETED, some now2) := by
  subst hid
  constructor
  · rw [cancelJob_found st now job.id job hjob, if_pos hterm]
  · rw [completeJob_found st now2 job.id result job hjob]
    have : getJob (updateJob st { job with
        status := .COMPLETED
        completed_at := some now2
        result := some (result.getD []) }) job.id =
        some { job with
          status := .COMPLETED
          completed_at := some now2
          result := some (result.getD []) } := by
      unfold getJob updateJob
      exact hget_hset_self _ _ _
    show (getJob (updateJob _ _) job.id).map _ = _
    rw [this]
    rfl

/-- Witness for C3 amended at the CANCELLED job `c3job`. -/
theorem terminal_state_amended_witness :
    (getJob c3st "c1" = some c3job ∧ c3job.id = "c1" ∧
      (c3job.status = .COMPLETED ∨ c3job.status = .FAILED ∨
        c3job.status = .CANCELLED)) ∧
    (cancelJob c3st 90 "c1" = (false, c3st) ∧
      (getJob (completeJob c3st 100 "c1" none) "c1").map
          (fun j => (j.status, j.completed_at)) =
        some (.COMPLETED, some 100)) :=
  ⟨⟨by decide, by decide, by decide⟩,
    terminal_state_amended c3st 90 100 "c1" c3job none (by decide) (by decide)
      (by decide)⟩

/-- **C5, counterexample**: a cleanup sweep at day 10 with a 7-day window
removes the record of the COMPLETED job `j1` finished on day 2, but leaves
its idempotency-key mapping `k1 ↦ j1` in place, and never removes the
CANCELLED (terminal) job `j2`, which sits in no sweep queue; the
3-day-old COMPLETED job `j3` is retained. -/
theorem cleanup_old_jobs_cex :
    c5jobOld.status = .COMPLETED ∧
    c5jobCancelled.status = .CANCELLED ∧
    getJob (cleanupOldJobs c5st 864000 7) "j1" = none ∧
    hget (cleanupOldJobs c5st 864000 7).idempotency "k1" = some "j1" ∧
    getJob (cleanupOldJobs c5st 864000 7) "j2" = some c5jobCancelled ∧
    getJob (cleanupOldJobs c5st 864000 7) "j3" = some c5jobYoung := by
  refine ⟨rfl, rfl, ?_, ?_, ?_, ?_⟩ <;> decide

/-- **C5, amended**: the cleanup sweep removes exactly the entries of the
completed and failed structures whose score (completion/failure second)
lies in `[0, now − days·86400]` and deletes those jobs' records; every
other record — including every CANCELLED job, which is in neither sweep
queue — is retained, and the idempotency index is never touched, so the
claim's "deletes the idempotency mapping" part does not hold. -/
theorem cleanup_old_jobs_amended (st : QMState) (now : Int) (days : Nat) :
    (cleanupOldJobs st now days).idempotency = st.idempotency ∧
    (cleanupOldJobs st now days).completed =
      zremrangebyscore st.completed 0 (now - (days : Int) * 24 * 60 * 60) ∧
    (cleanupOldJobs st now days).failed =
      zremrangebyscore st.failed 0 (now - (days : Int) * 24 * 60 * 60) ∧
    (∀ job_id,
      job_id ∈ zrangebyscore st.completed 0 (now - (days : Int) * 24 * 60 * 60) →
      getJob (cleanupOldJobs st now days) job_id = none) ∧
    (∀ job_id,
      job_id ∈ zrangebyscore st.failed 0 (now - (days : Int) * 24 * 60 * 60) →
      getJob (cleanupOldJobs st now days) job_id = none) ∧
    (∀ job_id,
      job_id ∉ zrangebyscore st.completed 0 (now - (days : Int) * 24 * 60 * 60) →
      job_id ∉ zrangebyscore st.failed 0 (now - (days : Int) * 24 * 60 * 60) →
      getJob (cleanupOldJobs st now days) job_id = getJob st job_id) := by
  rw [cleanupOldJobs_char]
  refine ⟨rfl, rfl, rfl, ?_, ?_, ?_⟩
  · intro job_id hmem
    show hget _ job_id = none
    rw [hget_foldl_hdel, hget_foldl_hdel]
    simp [hmem]
  · intro job_id hmem
    show hget _ job_id = none
    rw [hget_foldl_hdel]
    simp [hmem]
  · intro job_id hc hf
    show hget _ job_id = _
    rw [hget_foldl_hdel, hget_foldl_hdel]
    simp [hc, hf]
    rfl

/-- **C4**: when a job's payload carries a truthy platform and user id and
the rate limiter rejects the call, `process_job` returns True having only
rescheduled the job: the stored record keeps its `retry_count`, its status
is set back to PENDING, its `scheduled_at` becomes the limiter's reset
time plus a 60-second buffer, and the id is inserted into the scheduled
structure; the failed, retry, completed and processing structures are
untouched (no handler run, no failure recorded).  In the sequential model
a rejection always comes with a live counter key, so the reset time
exists. -/
theorem process_job_rate_limited
    (handlers : List (String × Handler)) (st : QMState) (now : Int)
    (job : QueueJob) (jitter : ℚ) (platform user_id : JVal)
    (hpf : hget job.payload "platform" = some platform)
    (hus : hget job.payload "user_id" = some user_id)
    (htp : jvalTruthy platform = true)
    (htu : jvalTruthy user_id = true)
    (hrej : (isAllowed st now (pyStr platform) (pyStr user_id)).1 = false) :
    ∃ reset_time,
      getResetTime st now (pyStr platform) (pyStr user_id) = some reset_time ∧
      now < reset_time ∧
      processJob handlers st now job jitter =
        (true,
          { (updateJob st { job with
              scheduled_at := reset_time + 60
              status := .PENDING }) with
            scheduled := zadd st.scheduled job.id (reset_time + 60) }) ∧
      getJob (processJob handlers st now job jitter).2 job.id =
        some { job with
          scheduled_at := reset_time + 60
          status := .PENDING } ∧
      ({ job with
          scheduled_at := reset_time + 60
          status := .PENDING } : QueueJob).retry_count = job.retry_count ∧
      (processJob handlers st now job jitter).2.failed = st.failed ∧
      (processJob handlers st now job jitter).2.retryQ = st.retryQ ∧
      (processJob handlers st now job jitter).2.completed = st.completed ∧
      (processJob handlers st now job jitter).2.processing = st.processing := by
  obtain ⟨hst, r, hr, hnr⟩ := isAllowed_false_inv st now (pyStr platform)
    (pyStr user_id) hrej
  have hPJ : processJob handlers st now job jitter =
      (true,
        { (updateJob st { job with
            scheduled_at := r + 60
            status := .PENDING }) with
          scheduled := zadd st.scheduled job.id (r + 60) }) := by
    unfold processJob
    rw [hpf, hus, processJobGate]
    rw [htp, htu]
    rw [if_pos (show (true && true) = true from rfl)]
    dsimp only
    rw [hrej, hst, if_neg Bool.false_ne_true, hr]
    rfl
  refine ⟨r, hr, hnr, hPJ, ?_, rfl, ?_, ?_, ?_, ?_⟩
  · rw [hPJ]
    show getJob (updateJob _ _) job.id = _
    unfold getJob updateJob
    exact hget_hset_self _ _ _
  · rw [hPJ]
    rfl
  · rw [hPJ]
    rfl
  · rw [hPJ]
    rfl
  · rw [hPJ]
    rfl

/-- Witness for C4: the twitter counter for user 1 is at its 300-request
limit with 40 s to expiry (`c4st`); processing `c4job` defers it. -/
theorem process_job_rate_limited_witness :
    (hget c4job.payload "platform" = some (.s "twitter") ∧
      hget c4job.payload "user_id" = some (.n 1) ∧
      jvalTruthy (.s "twitter") = true ∧
      jvalTruthy (.n 1) = true ∧
      (isAllowed c4st 10 (pyStr (.s "twitter")) (pyStr (.n 1))).1 = false) ∧
    (∃ reset_time,
      getResetTime c4st 10 (pyStr (.s "twitter")) (pyStr (.n 1)) =
        some reset_time ∧
      10 < reset_time ∧
      processJob [] c4st 10 c4job 1 =
        (true,
          { (updateJob c4st { c4job with
              scheduled_at := reset_time + 60
              status := .PENDING }) with
            scheduled := zadd c4st.scheduled c4job.id (reset_time + 60) }) ∧
      getJob (processJob [] c4st 10 c4job 1).2 c4job.id =
        some { c4job with
          scheduled_at := reset_time + 60
          status := .PENDING } ∧
      ({ c4job with
          scheduled_at := reset_time + 60
          status := .PENDING } : QueueJob).retry_count = c4job.retry_count ∧
      (processJob [] c4st 10 c4job 1).2.failed = c4st.failed ∧
      (processJob [] c4st 10 c4job 1).2.retryQ = c4st.retryQ ∧
      (processJob [] c4st 10 c4job 1).2.completed = c4st.completed ∧
      (processJob [] c4st 10 c4job 1).2.processing = c4st.processing) :=
  ⟨⟨by decide, by decide, by decide, by decide, by decide⟩,
    process_job_rate_limited [] c4st 10 c4job 1 (.s "twitter") (.n 1)
      (by decide) (by decide) (by decide) (by decide) (by decide)⟩

/-- **C6, counterexample**: the pending score is
`priority.value × 1000 + enqueue second`, so absolute wall-clock seconds
swamp the 1000-per-tier weight: a LOW job enqueued 5000 s after an URGENT
one (both eligible, both pending) is dequeued *first* — priority order is
not independent of insertion time. -/
theorem priority_order_cex :
    c6jobUrgent.priority = .URGENT ∧
    c6jobLow.priority = .LOW ∧
    c6jobLow.id ≠ c6jobUrgent.id ∧
    (dequeue c6st 5000).1.map (fun j => j.id) = some c6jobLow.id := by
  refine ⟨rfl, rfl, by decide, by decide⟩

/-- **C6, amended**: the higher-priority of two pending jobs is dequeued
first only when the lower-priority job's enqueue second exceeds the
higher's by less than `1000 × (difference of priority weights)`; under
that bound (in particular for jobs enqueued in the same second, as in the
URGENT/LOW/HIGH scenario) strict priority order holds, the
higher-priority job A being dequeued before the lower-priority B. -/
theorem priority_order_amended (tA tB now2 : Int) (A B : QueueJob)
    (hid : A.id ≠ B.id) (hkey : A.idempotency_key ≠ B.idempotency_key)
    (hsA : A.scheduled_at ≤ tA) (hsB : B.scheduled_at ≤ tB)
    (_hprio : B.priority.value < A.priority.value)
    (hgap : tB - tA < 1000 * (A.priority.value - B.priority.value)) :
    (dequeue (enqueue (enqueue {} tA A).2 tB B).2 tB).1 =
      some { A with status := .PROCESSING, started_at := some tB } ∧
    (dequeue (dequeue (enqueue (enqueue {} tA A).2 tB B).2 tB).2 now2).1 =
      some { B with status := .PROCESSING, started_at := some now2 } := by
  rw [enqueue_two_pending tA tB A B hid hkey hsA hsB]
  have hscore : priorityScore B.priority tB < priorityScore A.priority tA := by
    unfold priorityScore
    omega
  have hrest1 : zrem [(A.id, priorityScore A.priority tA),
      (B.id, priorityScore B.priority tB)] A.id =
      [(B.id, priorityScore B.priority tB)] := by
    simp [zrem, hdel, show ¬ B.id = A.id from fun h => hid h.symm]
  have hpop1 : zpopmax [(A.id, priorityScore A.priority tA),
      (B.id, priorityScore B.priority tB)] =
      some ((A.id, priorityScore A.priority tA),
        [(B.id, priorityScore B.priority tB)]) := by
    rw [zpopmax_pair_fst _ _ _ _ hscore, hrest1]
  have hja : hget (hset (hset [] A.id A) B.id B) A.id = some A := by
    rw [hget_hset_ne _ _ _ _ (fun h => hid h.symm), hget_hset_self]
  have hd1 := dequeue_char
    { jobs := hset (hset [] A.id A) B.id B
      idempotency :=
        hset (hset [] A.idempotency_key A.id) B.idempotency_key B.id
      pending := [(A.id, priorityScore A.priority tA),
        (B.id, priorityScore B.priority tB)] }
    tB A (priorityScore A.priority tA)
    [(B.id, priorityScore B.priority tB)] rfl rfl hpop1 hja
  refine ⟨by rw [hd1], ?_⟩
  rw [hd1]
  dsimp only
  have hrest2 : zrem [(B.id, priorityScore B.priority tB)] B.id = [] := by
    simp [zrem, hdel]
  have hpop2 : zpopmax [(B.id, priorityScore B.priority tB)] =
      some ((B.id, priorityScore B.priority tB), []) := by
    rw [zpopmax_singleton, hrest2]
  have hjb : hget (hset (hset (hset [] A.id A) B.id B) A.id
      { A with status := .PROCESSING, started_at := some tB }) B.id =
      some B := by
    rw [hget_hset_ne _ _ _ _ hid, hget_hset_self]
  have hd2 := dequeue_char
    { jobs := hset (hset (hset [] A.id A) B.id B) A.id
        { A with status := .PROCESSING, started_at := some tB }
      idempotency :=
        hset (hset [] A.idempotency_key A.id) B.idempotency_key B.id
      pending := [(B.id, priorityScore B.priority tB)]
      processing := zadd [] A.id tB }
    now2 B (priorityScore B.priority tB) [] rfl rfl hpop2 hjb
  rw [hd2]

/-- Witness for C6 amended: an URGENT job enqueued at second 0 and a LOW
job enqueued at second 100 (gap 100 < 3000 = 1000×(4−1)); the URGENT job
is dequeued first, the LOW one second. -/
theorem priority_order_amended_witness :
    (c6jobUrgent.id ≠ c6jobLow.id ∧
      c6jobUrgent.idempotency_key ≠ c6jobLow.idempotency_key ∧
      c6jobUrgent.scheduled_at ≤ 0 ∧ c6jobLow.scheduled_at ≤ 100 ∧
      c6jobLow.priority.value < c6jobUrgent.priority.value ∧
      100 - 0 < 1000 * (c6jobUrgent.priority.value - c6jobLow.priority.value)) ∧
    ((dequeue (enqueue (enqueue {} 0 c6jobUrgent).2 100 c6jobLow).2 100).1 =
      some { c6jobUrgent with
        status := .PROCESSING
        started_at := some 100 } ∧
    (dequeue (dequeue
        (enqueue (enqueue {} 0 c6jobUrgent).2 100 c6jobLow).2 100).2 200).1 =
      some { c6jobLow with
        status := .PROCESSING
        started_at := some 200 }) :=
  ⟨⟨by decide, by decide, by decide, by decide, by decide, by decide⟩,
    priority_order_amended 0 100 200 c6jobUrgent c6jobLow (by decide)
      (by decide) (by decide) (by decide) (by decide) (by decide)⟩

/-- **C9, counterexample**: two NORMAL jobs enqueued within the same
second receive the *same* pending score (`2×1000 + t`), so the LIFO claim
fails: the tie is broken by the lexicographically greatest id, and with
J1 = `"b"` enqueued before J2 = `"a"`, `dequeue()` returns J1, not J2. -/
theorem tie_break_cex :
    c9job1.priority = c9job2.priority ∧
    c9job1.id ≠ c9job2.id ∧
    (dequeue c9st 10).1.map (fun j => j.id) = some c9job1.id := by
  refine ⟨rfl, by decide, by decide⟩

/-- **C9, amended**: among equal-priority jobs the pending score grows
with the enqueue *second*, so last-in-first-out holds only across distinct
seconds: if J2 is enqueued at a strictly later second than J1, `dequeue()`
returns J2 before J1; within one second the scores tie and the
lexicographically greatest id wins instead. -/
theorem tie_break_amended (t1 t2 now2 : Int) (J1 J2 : QueueJob)
    (hid : J1.id ≠ J2.id) (hkey : J1.idempotency_key ≠ J2.idempotency_key)
    (hs1 : J1.scheduled_at ≤ t1) (hs2 : J2.scheduled_at ≤ t2)
    (hprio : J1.priority = J2.priority)
    (ht : t1 < t2) :
    (dequeue (enqueue (enqueue {} t1 J1).2 t2 J2).2 t2).1 =
      some { J2 with status := .PROCESSING, started_at := some t2 } ∧
    (dequeue (dequeue (enqueue (enqueue {} t1 J1).2 t2 J2).2 t2).2 now2).1 =
      some { J1 with status := .PROCESSING, started_at := some now2 } := by
  rw [enqueue_two_pending t1 t2 J1 J2 hid hkey hs1 hs2]
  have hval : J1.priority.value = J2.priority.value := by rw [hprio]
  have hscore : priorityScore J1.priority t1 < priorityScore J2.priority t2 := by
    unfold priorityScore
    omega
  have hrest1 : zrem [(J1.id, priorityScore J1.priority t1),
      (J2.id, priorityScore J2.priority t2)] J2.id =
      [(J1.id, priorityScore J1.priority t1)] := by
    simp [zrem, hdel, hid]
  have hpop1 : zpopmax [(J1.id, priorityScore J1.priority t1),
      (J2.id, priorityScore J2.priority t2)] =
      some ((J2.id, priorityScore J2.priority t2),
        [(J1.id, priorityScore J1.priority t1)]) := by
    rw [zpopmax_pair_snd _ _ _ _ hscore, hrest1]
  have hjb : hget (hset (hset [] J1.id J1) J2.id J2) J2.id = some J2 := by
    rw [hget_hset_self]
  have hd1 := dequeue_char
    { jobs := hset (hset [] J1.id J1) J2.id J2
      idempotency :=
        hset (hset [] J1.idempotency_key J1.id) J2.idempotency_key J2.id
      pending := [(J1.id, priorityScore J1.priority t1),
        (J2.id, priorityScore J2.priority t2)] }
    t2 J2 (priorityScore J2.priority t2)
    [(J1.id, priorityScore J1.priority t1)] rfl rfl hpop1 hjb
  refine ⟨by rw [hd1], ?_⟩
  rw [hd1]
  dsimp only
  have hrest2 : zrem [(J1.id, priorityScore J1.priority t1)] J1.id = [] := by
    simp [zrem, hdel]
  have hpop2 : zpopmax [(J1.id, priorityScore J1.priority t1)] =
      some ((J1.id, priorityScore J1.priority t1), []) := by
    rw [zpopmax_singleton, hrest2]
  have hja : hget (hset (hset (hset [] J1.id J1) J2.id J2) J2.id
      { J2 with status := .PROCESSING, started_at := some t2 }) J1.id =
      some J1 := by
    rw [hget_hset_ne _ _ _ _ (fun h => hid h.symm),
      hget_hset_ne _ _ _ _ (fun h => hid h.symm), hget_hset_self]
  have hd2 := dequeue_char
    { jobs := hset (hset (hset [] J1.id J1) J2.id J2) J2.id
        { J2 with status := .PROCESSING, started_at := some t2 }
      idempotency :=
        hset (hset [] J1.idempotency_key J1.id) J2.idempotency_key J2.id
      pending := [(J1.id, priorityScore J1.priority t1)]
      processing := zadd [] J2.id t2 }
    now2 J1 (priorityScore J1.priority t1) [] rfl rfl hpop2 hja
  rw [hd2]

/-- Witness for C9 amended: NORMAL jobs J1 (`"b"`) at second 10 and J2
(`"a"`) at second 11; J2 is dequeued first, J1 second. -/
theorem tie_break_amended_witness :
    (c9job1.id ≠ c9job2.id ∧
      c9job1.idempotency_key ≠ c9job2.idempotency_key ∧
      c9job1.scheduled_at ≤ 10 ∧ c9job2.scheduled_at ≤ 11 ∧
      c9job1.priority = c9job2.priority ∧ (10 : Int) < 11) ∧
    ((dequeue (enqueue (enqueue {} 10 c9job1).2 11 c9job2).2 11).1 =
      some { c9job2 with status := .PROCESSING, started_at := some 11 } ∧
    (dequeue (dequeue
        (enqueue (enqueue {} 10 c9job1).2 11 c9job2).2 11).2 12).1 =
      some { c9job1 with status := .PROCESSING, started_at := some 12 }) :=
  ⟨⟨by decide, by decide, by decide, by decide, by decide, by decide⟩,
    tie_break_amended 10 11 12 c9job1 c9job2 (by decide) (by decide)
      (by decide) (by decide) (by decide) (by decide)⟩

end QueueManagerModel
